import Mathlib

/-!
Shallow embedding of the offline-first synchronization layer of the
Free-writing-tool repository: the Local Entry Cache and Pending Mutation
Queue (client/src/lib/offlineStorage.ts) and the Sync Engine
(the useOfflineSync hook).

Modelling conventions:
* IndexedDB object stores are modelled as lists of records kept in insertion
  order; `put` overwrites the record with the same key in place, otherwise
  appends; `getAll` returns records sorted by ascending key, as the
  IndexedDB specification mandates (keys here are strings, compared
  lexicographically).
* Each storage primitive is one IndexedDB transaction and may fault; faults
  are injected by an oracle `storageFault : Nat → Bool` consulted on the
  per-state operation counter.  A faulting transaction leaves the store
  unchanged (IndexedDB aborts and rolls back the transaction).
* Remote Entry Service calls are an oracle of pure functions returning
  `Except Unit`; a `.error` models a network failure / non-2xx response
  thrown by apiRequest.  Every attempted HTTP request is recorded in a
  trace.
* `Date.now()` is an explicit `now : Nat` parameter.
* JavaScript `x || d` on optional strings (empty string is falsy) is
  modelled by `jsOr`.
-/

namespace FreeWriting

instance {ε α : Type} [DecidableEq ε] [DecidableEq α] :
    DecidableEq (Except ε α) := fun x y =>
  match x, y with
  | .error a, .error b =>
    if h : a = b then isTrue (by rw [h]) else isFalse (by simp [h])
  | .ok a, .ok b =>
    if h : a = b then isTrue (by rw [h]) else isFalse (by simp [h])
  | .error _, .ok _ => isFalse (by simp)
  | .ok _, .error _ => isFalse (by simp)

/-- A journal entry as handled by the offline sync layer. -/
structure JournalEntry where
  id : String
  userId : String
  title : String
  content : String
  tags : List String
  wordCount : String
  createdAt : Nat
  updatedAt : Nat
  deriving DecidableEq, Repr

/-- `Partial<InsertJournalEntry>`: the payload of a create/update; `none`
marks an absent field. -/
structure InsertData where
  title : Option String := none
  content : Option String := none
  tags : Option (List String) := none
  wordCount : Option String := none
  deriving DecidableEq, Repr

/-- JavaScript `x || d` for an optional string: absent or empty falls back
to the default. -/
def jsOr (x : Option String) (d : String) : String :=
  match x with
  | none => d
  | some s => if s = "" then d else s

/-- The object spread `{ ...entry, ...data, updatedAt: new Date() }` used by
`updateEntry`. -/
def applyInsertData (e : JournalEntry) (d : InsertData) (now : Nat) : JournalEntry :=
  { e with
    title := d.title.getD e.title
    content := d.content.getD e.content
    tags := d.tags.getD e.tags
    wordCount := d.wordCount.getD e.wordCount
    updatedAt := now }

/-- The action kind of a pending mutation. -/
inductive SyncAction where
  | create
  | update
  | delete
  deriving DecidableEq, Repr

/-- The string used for the action inside a mutation identifier. -/
def SyncAction.str : SyncAction → String
  | .create => "create"
  | .update => "update"
  | .delete => "delete"

/-- One record of the "pendingSync" store. -/
structure PendingSyncItem where
  id : String
  action : SyncAction
  entryId : String
  data : Option InsertData
  timestamp : Nat
  deriving DecidableEq, Repr

/-- The identifier generated by `addPendingSync`:
the template literal `${item.action}-${item.entryId}-${Date.now()}`. -/
def mkSyncId (a : SyncAction) (entryId : String) (now : Nat) : String :=
  a.str ++ "-" ++ entryId ++ "-" ++ toString now

/-- IndexedDB `put` on a store with an in-line string key: overwrite the
record with the same key, else append. -/
def idbPut {α : Type} (key : α → String) (x : α) (store : List α) : List α :=
  if store.any (fun y => key y = key x) then
    store.map (fun y => if key y = key x then x else y)
  else store ++ [x]

/-- IndexedDB `delete` by key. -/
def idbDelete {α : Type} (key : α → String) (k : String) (store : List α) : List α :=
  store.filter (fun y => ¬ key y = k)

/-- Strict lexicographic comparison of character sequences, written with
structural recursion so that concrete instances compute.  This is the
order IndexedDB uses on string keys (our keys are ASCII, where code-unit
and character order agree). -/
def charListLt : List Char → List Char → Bool
  | _, [] => false
  | [], _ :: _ => true
  | a :: as, b :: bs => decide (a < b) || (decide (a = b) && charListLt as bs)

/-- `a < b` on strings as IndexedDB compares keys. -/
def strLt (a b : String) : Prop := charListLt a.data b.data = true

/-- `a ≤ b` on strings as IndexedDB compares keys. -/
def strLe (a b : String) : Prop := ¬ strLt b a

/-- JavaScript `s.startsWith(pre)` (character-sequence prefix test). -/
def strStartsWith (s pre : String) : Bool := pre.data.isPrefixOf s.data

/-- Ascending key order of the "pendingSync" store. -/
def idLe (a b : PendingSyncItem) : Prop := strLe a.id b.id

instance : DecidableRel strLt := fun a b =>
  inferInstanceAs (Decidable (charListLt a.data b.data = true))

instance : DecidableRel strLe := fun a b =>
  inferInstanceAs (Decidable (¬ strLt b a))

instance : DecidableRel idLe := fun a b =>
  inferInstanceAs (Decidable (strLe a.id b.id))

/-- IndexedDB `getAll` on the "pendingSync" store: all records in
ascending key order. -/
def sortById (q : List PendingSyncItem) : List PendingSyncItem :=
  List.insertionSort idLe q

/-- One HTTP request attempted against the Remote Entry Service. -/
inductive Request where
  | post (d : InsertData)
  | patch (id : String) (d : InsertData)
  | del (id : String)
  | pull (userId : String)
  deriving DecidableEq, Repr

/-- The full client-side state visible to the sync layer.  `cache` is the
"entries" store, `queue` the "pendingSync" store (both in insertion order);
`opCount` counts storage transactions (for fault injection); `log` collects
console.error messages; `trace` records attempted HTTP requests. -/
structure SyncState where
  online : Bool
  syncInProgress : Bool
  isSyncing : Bool
  hasPendingChanges : Bool
  userId : Option String
  cache : List JournalEntry
  queue : List PendingSyncItem
  opCount : Nat
  log : List String
  trace : List Request
  deriving DecidableEq, Repr

/-- The environment: Remote Entry Service responses and the storage fault
oracle.  `pull` returns `.ok none` for an HTTP non-ok response (silently
skipped by the code) and `.ok (some l)` for a 200 with body `l`. -/
structure Env where
  post : InsertData → Except Unit JournalEntry
  patch : String → InsertData → Except Unit Unit
  deleteReq : String → Except Unit Unit
  pull : String → Except Unit (Option (List JournalEntry))
  storageFault : Nat → Bool

/-- Begin one storage transaction: bump the counter and ask the oracle
whether this transaction faults. -/
def stepStorage (env : Env) (s : SyncState) : SyncState × Bool :=
  ({ s with opCount := s.opCount + 1 }, env.storageFault s.opCount)

/-- `saveEntryOffline`: `put` one entry into the "entries" store. -/
def saveEntryOffline (env : Env) (e : JournalEntry) (s : SyncState) :
    SyncState × Except Unit Unit :=
  let (s1, fault) := stepStorage env s
  if fault then (s1, .error ())
  else ({ s1 with cache := idbPut (fun x => x.id) e s1.cache }, .ok ())

/-- `getEntriesOffline`: all cached entries of one owner (via the "userId"
index). -/
def getEntriesOffline (env : Env) (uid : String) (s : SyncState) :
    SyncState × Except Unit (List JournalEntry) :=
  let (s1, fault) := stepStorage env s
  if fault then (s1, .error ())
  else (s1, .ok (s1.cache.filter (fun e => e.userId = uid)))

/-- `getEntryOffline`: one cached entry by id, `none` when absent. -/
def getEntryOffline (env : Env) (id : String) (s : SyncState) :
    SyncState × Except Unit (Option JournalEntry) :=
  let (s1, fault) := stepStorage env s
  if fault then (s1, .error ())
  else (s1, .ok (s1.cache.find? (fun e => e.id = id)))

/-- `deleteEntryOffline`: delete one entry by id from the "entries" store. -/
def deleteEntryOffline (env : Env) (id : String) (s : SyncState) :
    SyncState × Except Unit Unit :=
  let (s1, fault) := stepStorage env s
  if fault then (s1, .error ())
  else ({ s1 with cache := idbDelete (fun x => x.id) id s1.cache }, .ok ())

/-- `addPendingSync`: `put` a new mutation, with identifier
`action-entryId-now` and timestamp `now`, into the "pendingSync" store. -/
def addPendingSync (env : Env) (now : Nat) (a : SyncAction) (entryId : String)
    (d : Option InsertData) (s : SyncState) : SyncState × Except Unit Unit :=
  let (s1, fault) := stepStorage env s
  if fault then (s1, .error ())
  else
    let item : PendingSyncItem :=
      { id := mkSyncId a entryId now, action := a, entryId := entryId,
        data := d, timestamp := now }
    ({ s1 with queue := idbPut (fun x => x.id) item s1.queue }, .ok ())

/-- `getPendingSyncs`: `getAll` on the "pendingSync" store — records in
ascending key order. -/
def getPendingSyncs (env : Env) (s : SyncState) :
    SyncState × Except Unit (List PendingSyncItem) :=
  let (s1, fault) := stepStorage env s
  if fault then (s1, .error ())
  else (s1, .ok (sortById s1.queue))

/-- `removePendingSync`: delete one mutation by its identifier. -/
def removePendingSync (env : Env) (id : String) (s : SyncState) :
    SyncState × Except Unit Unit :=
  let (s1, fault) := stepStorage env s
  if fault then (s1, .error ())
  else ({ s1 with queue := idbDelete (fun x => x.id) id s1.queue }, .ok ())

/-- The pure bulk upsert performed by `syncEntriesFromServer`. -/
def putAllEntries (entries : List JournalEntry) (cache : List JournalEntry) :
    List JournalEntry :=
  entries.foldl (fun c e => idbPut (fun x => x.id) e c) cache

/-- `syncEntriesFromServer`: one transaction `put`ting every pulled entry
into the "entries" store (a faulting transaction aborts and rolls back). -/
def syncEntriesFromServer (env : Env) (entries : List JournalEntry) (s : SyncState) :
    SyncState × Except Unit Unit :=
  let (s1, fault) := stepStorage env s
  if fault then (s1, .error ())
  else ({ s1 with cache := putAllEntries entries s1.cache }, .ok ())

/-- `hasPendingSyncs`: `getPendingSyncs().then(syncs => syncs.length > 0)`. -/
def hasPendingSyncs (env : Env) (s : SyncState) : SyncState × Except Unit Bool :=
  let r := getPendingSyncs env s
  match r.2 with
  | .error e => (r.1, .error e)
  | .ok l => (r.1, .ok (decide (0 < l.length)))

/-! ### The Sync Engine (useOfflineSync hook) -/

/-- `createEntry(data)` of the hook: online it does nothing and returns
null; offline it synthesizes a temporary entry (id `offline-${Date.now()}`),
persists it, enqueues a create mutation and returns it. -/
def createEntry (env : Env) (now : Nat) (d : InsertData) (s : SyncState) :
    SyncState × Except Unit (Option JournalEntry) :=
  if s.online then (s, .ok none)
  else
    let tempId := "offline-" ++ toString now
    let tempEntry : JournalEntry :=
      { id := tempId
        userId := s.userId.getD ""
        title := jsOr d.title ""
        content := jsOr d.content ""
        tags := d.tags.getD []
        wordCount := jsOr d.wordCount "0"
        createdAt := now
        updatedAt := now }
    let r1 := saveEntryOffline env tempEntry s
    match r1.2 with
    | .error e => (r1.1, .error e)
    | .ok _ =>
      let r2 := addPendingSync env now .create tempId (some d) r1.1
      match r2.2 with
      | .error e => (r2.1, .error e)
      | .ok _ => ({ r2.1 with hasPendingChanges := true }, .ok (some tempEntry))

/-- `updateEntry(id, data)` of the hook: merge `data` into the cached entry
(when present) and save; when offline, also enqueue an update mutation. -/
def updateEntry (env : Env) (now : Nat) (id : String) (d : InsertData)
    (s : SyncState) : SyncState × Except Unit Unit :=
  let r1 := getEntriesOffline env (s.userId.getD "") s
  match r1.2 with
  | .error e => (r1.1, .error e)
  | .ok existingEntries =>
    let saveStep : SyncState × Except Unit Unit :=
      match existingEntries.find? (fun e => e.id = id) with
      | some entry => saveEntryOffline env (applyInsertData entry d now) r1.1
      | none => (r1.1, .ok ())
    match saveStep.2 with
    | .error e => (saveStep.1, .error e)
    | .ok _ =>
      if saveStep.1.online then (saveStep.1, .ok ())
      else
        let r3 := addPendingSync env now .update id (some d) saveStep.1
        match r3.2 with
        | .error e => (r3.1, .error e)
        | .ok _ => ({ r3.1 with hasPendingChanges := true }, .ok ())

/-- The console.error message of the per-mutation catch in `syncNow`. -/
def syncItemFailLog (id : String) : String := "Failed to sync item: " ++ id

/-- The console.error message of the reconciliation-pull catch. -/
def fetchFailLog : String := "Failed to fetch entries from server"

/-- The console.error message of the outer catch of `syncNow`. -/
def syncFailLog : String := "Sync failed"

/-- The body of the replay loop of `syncNow` for one mutation, including
its per-mutation try/catch: attempt the action, then `removePendingSync`;
any failure is caught and logged, and the mutation stays queued. -/
def processSyncItem (env : Env) (s : SyncState) (item : PendingSyncItem) :
    SyncState :=
  let actionStep : SyncState × Except Unit Unit :=
    match item.action, item.data with
    | .create, some d =>
      let s1 := { s with trace := s.trace ++ [Request.post d] }
      match env.post d with
      | .error e => (s1, .error e)
      | .ok serverEntry =>
        let r2 := deleteEntryOffline env item.entryId s1
        match r2.2 with
        | .error e => (r2.1, .error e)
        | .ok _ => saveEntryOffline env serverEntry r2.1
    | .update, some d =>
      if strStartsWith item.entryId "offline-" then (s, .ok ())
      else
        let s1 := { s with trace := s.trace ++ [Request.patch item.entryId d] }
        match env.patch item.entryId d with
        | .error e => (s1, .error e)
        | .ok _ => (s1, .ok ())
    | .delete, _ =>
      if strStartsWith item.entryId "offline-" then (s, .ok ())
      else
        let s1 := { s with trace := s.trace ++ [Request.del item.entryId] }
        match env.deleteReq item.entryId with
        | .error e => (s1, .error e)
        | .ok _ => (s1, .ok ())
    | _, none => (s, .ok ())
  match actionStep.2 with
  | .error _ =>
    { actionStep.1 with log := actionStep.1.log ++ [syncItemFailLog item.id] }
  | .ok _ =>
    let r2 := removePendingSync env item.id actionStep.1
    match r2.2 with
    | .error _ => { r2.1 with log := r2.1.log ++ [syncItemFailLog item.id] }
    | .ok _ => r2.1

/-- The reconciliation pull of `syncNow` with its own try/catch: when an
owner is known, fetch the owner's entries and bulk-upsert them; a non-ok
response is skipped silently, a failure is caught and logged. -/
def pullPhase (env : Env) (s : SyncState) : SyncState :=
  match s.userId with
  | none => s
  | some uid =>
    let s1 := { s with trace := s.trace ++ [Request.pull uid] }
    match env.pull uid with
    | .error _ => { s1 with log := s1.log ++ [fetchFailLog] }
    | .ok none => s1
    | .ok (some entries) =>
      let r2 := syncEntriesFromServer env entries s1
      match r2.2 with
      | .error _ => { r2.1 with log := r2.1.log ++ [fetchFailLog] }
      | .ok _ => r2.1

/-- The `finally` block of `syncNow`. -/
def finalizePass (s : SyncState) : SyncState :=
  { s with isSyncing := false, syncInProgress := false }

/-- `syncNow()`: no-op unless online and not already running; otherwise
mark running, drain the queue, replay each mutation, pull and reconcile,
recompute has-pending-changes, and mark idle.  All faults are caught
(outer catch logs), and the `finally` block always clears both flags. -/
def syncNow (env : Env) (s : SyncState) : SyncState :=
  if !s.online || s.syncInProgress then s
  else
    let s0 := { s with syncInProgress := true, isSyncing := true }
    let r1 := getPendingSyncs env s0
    let s4 :=
      match r1.2 with
      | .error _ => { r1.1 with log := r1.1.log ++ [syncFailLog] }
      | .ok pendingSyncs =>
        let s2 := pendingSyncs.foldl (processSyncItem env) r1.1
        let s3 := pullPhase env s2
        let rp := hasPendingSyncs env s3
        match rp.2 with
        | .error _ => { rp.1 with log := rp.1.log ++ [syncFailLog] }
        | .ok pending => { rp.1 with hasPendingChanges := pending }
    finalizePass s4

/-! ### Concrete fixtures used by witnesses and counterexamples -/

/-- A client state with the given connectivity, owner, cache and queue and
everything else in its initial configuration. -/
def mkState (online : Bool) (uid : Option String) (cache : List JournalEntry)
    (queue : List PendingSyncItem) : SyncState :=
  { online := online
    syncInProgress := false
    isSyncing := false
    hasPendingChanges := false
    userId := uid
    cache := cache
    queue := queue
    opCount := 0
    log := []
    trace := [] }

def exServerEntry : JournalEntry :=
  { id := "srv-1", userId := "u", title := "Draft", content := "hello",
    tags := [], wordCount := "1", createdAt := 5, updatedAt := 5 }

def exEntry : JournalEntry :=
  { id := "e1", userId := "u", title := "old", content := "stale",
    tags := [], wordCount := "0", createdAt := 0, updatedAt := 0 }

def exFreshEntry : JournalEntry :=
  { id := "e1", userId := "u", title := "old", content := "fresh",
    tags := [], wordCount := "0", createdAt := 0, updatedAt := 3 }

def exTempEntry : JournalEntry :=
  { id := "offline-7", userId := "u", title := "Draft", content := "hello",
    tags := [], wordCount := "1", createdAt := 7, updatedAt := 7 }

def exData : InsertData := { title := some "Draft", content := some "hello" }

def exData2 : InsertData := { title := some "b" }

/-- An environment whose Remote Entry Service always succeeds (creates
answer with `exServerEntry`, the pull returns `[exFreshEntry]`) and whose
storage never faults. -/
def exEnv : Env :=
  { post := fun _ => .ok exServerEntry
    patch := fun _ _ => .ok ()
    deleteReq := fun _ => .ok ()
    pull := fun _ => .ok (some [exFreshEntry])
    storageFault := fun _ => false }

/-- An environment whose Remote Entry Service always fails (network down)
but whose storage never faults. -/
def exEnvFail : Env :=
  { post := fun _ => .error ()
    patch := fun _ _ => .error ()
    deleteReq := fun _ => .error ()
    pull := fun _ => .error ()
    storageFault := fun _ => false }

/-- A create mutation as enqueued for `exTempEntry` while offline. -/
def exCreateItem : PendingSyncItem :=
  { id := mkSyncId .create "offline-7" 7, action := .create,
    entryId := "offline-7", data := some exData, timestamp := 7 }

/-- An update mutation targeting the temporary id, enqueued after the
create. -/
def exUpdateItem : PendingSyncItem :=
  { id := mkSyncId .update "offline-7" 8, action := .update,
    entryId := "offline-7", data := some exData2, timestamp := 8 }

/-- Queue state obtained by enqueueing, in this order, an update for the
server-known entry "e1" (at millisecond 1) and then a create for a
temporary entry (at millisecond 2), while offline. -/
def exTwoQueueState : SyncState :=
  (addPendingSync exEnv 2 .create "offline-2" (some exData)
    ((addPendingSync exEnv 1 .update "e1" (some exData2)
      (mkState false (some "u") [exEntry] [])).1)).1

end FreeWriting

namespace FreeWriting

/-! ### Order bridge: the computational key order coincides with the
lexicographic string order -/

theorem charListLt_iff (x : List Char) :
    ∀ (y : List Char), charListLt x y = true ↔ List.Lex (· < ·) x y := by
  induction x with
  | nil =>
    intro y
    cases y with
    | nil =>
      simp only [charListLt, Bool.false_eq_true, false_iff]
      intro h; cases h
    | cons b bs => simp only [charListLt, true_iff]; exact List.Lex.nil
  | cons a as ih =>
    intro y
    cases y with
    | nil =>
      simp only [charListLt, Bool.false_eq_true, false_iff]
      intro h; cases h
    | cons b bs =>
      simp only [charListLt, Bool.or_eq_true, Bool.and_eq_true, decide_eq_true_eq, ih bs]
      constructor
      · rintro (h | ⟨rfl, h⟩)
        · exact List.Lex.rel h
        · exact List.Lex.cons h
      · intro h
        cases h with
        | rel h => exact Or.inl h
        | cons h => exact Or.inr ⟨rfl, h⟩

theorem strLt_iff (a b : String) : strLt a b ↔ a < b := by
  rw [String.lt_iff_toList_lt]
  exact charListLt_iff a.data b.data

theorem strLe_iff (a b : String) : strLe a b ↔ a ≤ b := by
  unfold strLe
  rw [strLt_iff b a]
  exact not_lt

theorem idLe_total : ∀ a b : PendingSyncItem, idLe a b ∨ idLe b a := by
  intro a b
  unfold idLe
  rw [strLe_iff, strLe_iff]
  exact le_total a.id b.id

theorem idLe_trans : ∀ a b c : PendingSyncItem, idLe a b → idLe b c → idLe a c := by
  intro a b c hab hbc
  unfold idLe at *
  rw [strLe_iff] at *
  exact le_trans hab hbc

/-! ### Equation lemmas for the storage primitives -/

@[simp] theorem saveEntryOffline_fst (env : Env) (e : JournalEntry) (s : SyncState) :
    (saveEntryOffline env e s).1
      = { s with opCount := s.opCount + 1
                 cache := if env.storageFault s.opCount then s.cache
                          else idbPut (fun x => x.id) e s.cache } := by
  unfold saveEntryOffline stepStorage
  by_cases hf : env.storageFault s.opCount <;> simp [hf]

@[simp] theorem deleteEntryOffline_fst (env : Env) (id : String) (s : SyncState) :
    (deleteEntryOffline env id s).1
      = { s with opCount := s.opCount + 1
                 cache := if env.storageFault s.opCount then s.cache
                          else idbDelete (fun x => x.id) id s.cache } := by
  unfold deleteEntryOffline stepStorage
  by_cases hf : env.storageFault s.opCount <;> simp [hf]

@[simp] theorem addPendingSync_fst (env : Env) (now : Nat) (a : SyncAction)
    (entryId : String) (d : Option InsertData) (s : SyncState) :
    (addPendingSync env now a entryId d s).1
      = { s with opCount := s.opCount + 1
                 queue := if env.storageFault s.opCount then s.queue
                          else idbPut (fun x => x.id)
                            { id := mkSyncId a entryId now, action := a,
                              entryId := entryId, data := d, timestamp := now }
                            s.queue } := by
  unfold addPendingSync stepStorage
  by_cases hf : env.storageFault s.opCount <;> simp [hf]

@[simp] theorem removePendingSync_fst (env : Env) (id : String) (s : SyncState) :
    (removePendingSync env id s).1
      = { s with opCount := s.opCount + 1
                 queue := if env.storageFault s.opCount then s.queue
                          else idbDelete (fun x => x.id) id s.queue } := by
  unfold removePendingSync stepStorage
  by_cases hf : env.storageFault s.opCount <;> simp [hf]

@[simp] theorem getEntriesOffline_fst (env : Env) (uid : String) (s : SyncState) :
    (getEntriesOffline env uid s).1 = { s with opCount := s.opCount + 1 } := by
  unfold getEntriesOffline stepStorage
  by_cases hf : env.storageFault s.opCount <;> simp [hf]

@[simp] theorem getEntryOffline_fst (env : Env) (id : String) (s : SyncState) :
    (getEntryOffline env id s).1 = { s with opCount := s.opCount + 1 } := by
  unfold getEntryOffline stepStorage
  by_cases hf : env.storageFault s.opCount <;> simp [hf]

@[simp] theorem getPendingSyncs_fst (env : Env) (s : SyncState) :
    (getPendingSyncs env s).1 = { s with opCount := s.opCount + 1 } := by
  unfold getPendingSyncs stepStorage
  by_cases hf : env.storageFault s.opCount <;> simp [hf]

@[simp] theorem syncEntriesFromServer_fst (env : Env) (entries : List JournalEntry)
    (s : SyncState) :
    (syncEntriesFromServer env entries s).1
      = { s with opCount := s.opCount + 1
                 cache := if env.storageFault s.opCount then s.cache
                          else putAllEntries entries s.cache } := by
  unfold syncEntriesFromServer stepStorage
  by_cases hf : env.storageFault s.opCount <;> simp [hf]

@[simp] theorem getPendingSyncs_snd (env : Env) (s : SyncState) :
    (getPendingSyncs env s).2
      = if env.storageFault s.opCount then .error ()
        else .ok (sortById s.queue) := by
  unfold getPendingSyncs stepStorage
  by_cases hf : env.storageFault s.opCount <;> simp [hf]

@[simp] theorem hasPendingSyncs_fst (env : Env) (s : SyncState) :
    (hasPendingSyncs env s).1 = { s with opCount := s.opCount + 1 } := by
  unfold hasPendingSyncs
  by_cases hf : env.storageFault s.opCount <;> simp [hf]

@[simp] theorem hasPendingSyncs_snd (env : Env) (s : SyncState) :
    (hasPendingSyncs env s).2
      = if env.storageFault s.opCount then .error ()
        else .ok (decide (0 < (sortById s.queue).length)) := by
  unfold hasPendingSyncs
  by_cases hf : env.storageFault s.opCount <;> simp [hf]


/-! ### Shape lemmas for put/find and the replay step -/

theorem find?_map_replace {α : Type} (key : α → String) (x : α) (k : String)
    (h : ¬ key x = k) (store : List α) :
    (store.map (fun y => if key y = key x then x else y)).find? (fun y => key y = k)
      = store.find? (fun y => key y = k) := by
  induction store with
  | nil => rfl
  | cons a as ih =>
    by_cases hk : key a = key x
    · simp only [List.map_cons, if_pos hk, List.find?_cons]
      have hpa : (decide (key a = k)) = false := by
        simp [hk, h]
      have hpx : (decide (key x = k)) = false := by simp [h]
      rw [hpa, hpx]
      exact ih
    · simp only [List.map_cons, if_neg hk, List.find?_cons]
      cases hpa : (decide (key a = k)) with
      | true => rfl
      | false => exact ih

theorem find?_idbPut_ne {α : Type} (key : α → String) (x : α) (k : String)
    (store : List α) (h : ¬ key x = k) :
    (idbPut key x store).find? (fun y => key y = k)
      = store.find? (fun y => key y = k) := by
  unfold idbPut
  split
  · exact find?_map_replace key x k h store
  · rw [List.find?_append]
    have : ([x].find? (fun y => key y = k)) = none := by
      simp [List.find?, h]
    rw [this]
    cases store.find? (fun y => key y = k) <;> rfl

theorem find?_idbPut_self {α : Type} (key : α → String) (x : α) (store : List α) :
    (idbPut key x store).find? (fun y => key y = key x) = some x := by
  unfold idbPut
  split
  · rename_i hany
    induction store with
    | nil => simp at hany
    | cons a as ih =>
      by_cases hk : key a = key x
      · simp [List.find?, hk]
      · simp only [List.map_cons, if_neg hk, List.find?_cons]
        have hpa : (decide (key a = key x)) = false := by simp [hk]
        rw [hpa]
        apply ih
        simp only [List.any_cons, Bool.or_eq_true, decide_eq_true_eq] at hany
        rcases hany with h | h
        · exact absurd h hk
        · simpa using h
  · rw [List.find?_append]
    have hx : ([x].find? (fun y => key y = key x)) = some x := by simp [List.find?]
    have hs : (store.find? (fun y => key y = key x)) = none := by
      rename_i hany
      rw [List.find?_eq_none]
      intro y hy
      simp only [List.any_eq_true, decide_eq_true_eq] at hany
      simp only [decide_eq_true_eq]
      intro hc
      exact hany ⟨y, hy, hc⟩
    rw [hs, hx]
    rfl

theorem find?_putAll_untouched (l : List JournalEntry) (k : String)
    (h : ∀ x ∈ l, ¬ x.id = k) (c : List JournalEntry) :
    (putAllEntries l c).find? (fun y => y.id = k) = c.find? (fun y => y.id = k) := by
  induction l generalizing c with
  | nil => rfl
  | cons a l ih =>
    unfold putAllEntries at *
    simp only [List.foldl_cons]
    rw [ih (fun x hx => h x (List.mem_cons_of_mem a hx))]
    exact find?_idbPut_ne (fun x => x.id) a k c (h a (List.mem_cons_self a l))

theorem find?_putAll_unique (l : List JournalEntry) (k : String) (e : JournalEntry)
    (hl : l.filter (fun x => x.id = k) = [e]) :
    ∀ (c : List JournalEntry),
      (putAllEntries l c).find? (fun y => y.id = k) = some e := by
  induction l with
  | nil => simp at hl
  | cons a l ih =>
    intro c
    by_cases ha : a.id = k
    · subst ha
      rw [List.filter_cons_of_pos (by simp)] at hl
      have hae : a = e ∧ l.filter (fun x => x.id = a.id) = [] := by
        constructor
        · exact ((List.cons.injEq a _ e []).mp hl).1
        · exact ((List.cons.injEq a _ e []).mp hl).2
      have hnone : ∀ x ∈ l, ¬ x.id = a.id := by
        intro x hx
        have := List.filter_eq_nil_iff.mp hae.2 x hx
        simpa using this
      unfold putAllEntries
      simp only [List.foldl_cons]
      rw [show (l.foldl (fun c e => idbPut (fun x => x.id) e c)
            (idbPut (fun x => x.id) a c))
          = putAllEntries l (idbPut (fun x => x.id) a c) from rfl]
      rw [find?_putAll_untouched l a.id hnone]
      rw [← hae.1]
      exact find?_idbPut_self (fun x => x.id) a c
    · rw [List.filter_cons_of_neg (by simpa using ha)] at hl
      unfold putAllEntries
      simp only [List.foldl_cons]
      exact ih hl (idbPut (fun x => x.id) a c)

theorem processSyncItem_preserves (env : Env) (s : SyncState) (item : PendingSyncItem) :
    (processSyncItem env s item).userId = s.userId
      ∧ (processSyncItem env s item).online = s.online
      ∧ (processSyncItem env s item).syncInProgress = s.syncInProgress
      ∧ (processSyncItem env s item).isSyncing = s.isSyncing := by
  rcases item with ⟨iid, act, eid, dat, ts⟩
  unfold processSyncItem
  cases act <;> rcases dat with _ | d <;> simp only [] <;>
    (repeat' split) <;> simp

theorem processSyncItem_log (env : Env) (s : SyncState) (item : PendingSyncItem) :
    (processSyncItem env s item).log = s.log
      ∨ (processSyncItem env s item).log = s.log ++ [syncItemFailLog item.id] := by
  rcases item with ⟨iid, act, eid, dat, ts⟩
  unfold processSyncItem
  cases act <;> rcases dat with _ | d <;> simp only [] <;>
    (repeat' split) <;> simp

theorem foldl_processSyncItem_userId (env : Env) (l : List PendingSyncItem)
    (s : SyncState) :
    (l.foldl (processSyncItem env) s).userId = s.userId := by
  induction l generalizing s with
  | nil => rfl
  | cons a l ih => rw [List.foldl_cons, ih, (processSyncItem_preserves env s a).1]

@[simp] theorem saveEntryOffline_snd (env : Env) (e : JournalEntry) (s : SyncState) :
    (saveEntryOffline env e s).2
      = if env.storageFault s.opCount then .error () else .ok () := by
  unfold saveEntryOffline stepStorage
  by_cases hf : env.storageFault s.opCount <;> simp [hf]

@[simp] theorem deleteEntryOffline_snd (env : Env) (id : String) (s : SyncState) :
    (deleteEntryOffline env id s).2
      = if env.storageFault s.opCount then .error () else .ok () := by
  unfold deleteEntryOffline stepStorage
  by_cases hf : env.storageFault s.opCount <;> simp [hf]

@[simp] theorem addPendingSync_snd (env : Env) (now : Nat) (a : SyncAction)
    (entryId : String) (d : Option InsertData) (s : SyncState) :
    (addPendingSync env now a entryId d s).2
      = if env.storageFault s.opCount then .error () else .ok () := by
  unfold addPendingSync stepStorage
  by_cases hf : env.storageFault s.opCount <;> simp [hf]

@[simp] theorem removePendingSync_snd (env : Env) (id : String) (s : SyncState) :
    (removePendingSync env id s).2
      = if env.storageFault s.opCount then .error () else .ok () := by
  unfold removePendingSync stepStorage
  by_cases hf : env.storageFault s.opCount <;> simp [hf]

@[simp] theorem syncEntriesFromServer_snd (env : Env) (entries : List JournalEntry)
    (s : SyncState) :
    (syncEntriesFromServer env entries s).2
      = if env.storageFault s.opCount then .error () else .ok () := by
  unfold syncEntriesFromServer stepStorage
  by_cases hf : env.storageFault s.opCount <;> simp [hf]

@[simp] theorem getEntriesOffline_snd (env : Env) (uid : String) (s : SyncState) :
    (getEntriesOffline env uid s).2
      = if env.storageFault s.opCount then .error ()
        else .ok (s.cache.filter (fun e => e.userId = uid)) := by
  unfold getEntriesOffline stepStorage
  by_cases hf : env.storageFault s.opCount <;> simp [hf]

@[simp] theorem applyInsertData_id (e : JournalEntry) (d : InsertData) (now : Nat) :
    (applyInsertData e d now).id = e.id := rfl

@[simp] theorem applyInsertData_userId (e : JournalEntry) (d : InsertData) (now : Nat) :
    (applyInsertData e d now).userId = e.userId := rfl

end FreeWriting

namespace FreeWriting

/-! ### Claim theorems -/

/-- Claim C2 (amended): the queue's drain operation returns all pending
mutations, but in ascending order of their identifier strings (the
IndexedDB key order: action kind, then target id, then timestamp) — a
sorted permutation of the stored queue — and a sync pass processes them in
that identifier order, which coincides with enqueue order only when the two
agree. -/
theorem drain_sorted (env : Env) (s : SyncState)
    (hf : env.storageFault s.opCount = false) :
    (getPendingSyncs env s).2 = Except.ok (sortById s.queue)
      ∧ (sortById s.queue).Perm s.queue
      ∧ List.Sorted idLe (sortById s.queue) := by
  haveI : IsTotal PendingSyncItem idLe := ⟨idLe_total⟩
  haveI : IsTrans PendingSyncItem idLe := ⟨idLe_trans⟩
  refine ⟨?_, List.perm_insertionSort idLe s.queue, List.sorted_insertionSort idLe s.queue⟩
  rw [getPendingSyncs_snd, hf]
  simp

/-- Witness for C2's amended theorem at a concrete two-element queue. -/
theorem drain_sorted_witness :
    (getPendingSyncs exEnv exTwoQueueState).2 = Except.ok (sortById exTwoQueueState.queue)
      ∧ (sortById exTwoQueueState.queue).Perm exTwoQueueState.queue
      ∧ List.Sorted idLe (sortById exTwoQueueState.queue) :=
  drain_sorted exEnv exTwoQueueState (by decide)

/-- Claim C2 counterexample: enqueueing, while offline, first an update for
the server-known entry "e1" and then a create (enqueue order [A, B]),
`getPendingSyncs` returns [B, A] — not enqueue order — because the create's
identifier sorts first, and the subsequent sync pass invokes the Remote
Entry Service in that reversed order (POST before PATCH). -/
theorem drain_enqueue_order_counterexample :
    exTwoQueueState.queue.map (fun i => i.action)
        = [SyncAction.update, SyncAction.create]
      ∧ (getPendingSyncs exEnv exTwoQueueState).2.toOption
        = some exTwoQueueState.queue.reverse
      ∧ ¬ (getPendingSyncs exEnv exTwoQueueState).2.toOption
          = some exTwoQueueState.queue
      ∧ (syncNow exEnv { exTwoQueueState with online := true, userId := none }).trace
        = [Request.post exData, Request.patch "e1" exData2] := by
  exact ⟨by decide, by decide, by decide, by decide⟩

/-- Claim C6: `syncNow` is a no-op unless the client is online and no sync
pass is already running; a trigger received while a pass is running (or
while offline) leaves the state completely unchanged — it is dropped, not
queued. -/
theorem syncNow_guard (env : Env) (s : SyncState)
    (h : s.online = false ∨ s.syncInProgress = true) :
    syncNow env s = s := by
  unfold syncNow
  rcases h with h | h <;> simp [h]

/-- Witness for C6 at a concrete offline state and at a concrete state with
a pass already running. -/
theorem syncNow_guard_witness :
    syncNow exEnv (mkState false (some "u") [] []) = mkState false (some "u") [] []
      ∧ syncNow exEnvFail { mkState true (some "u") [exEntry] [] with syncInProgress := true }
        = { mkState true (some "u") [exEntry] [] with syncInProgress := true } :=
  ⟨syncNow_guard exEnv (mkState false (some "u") [] []) (Or.inl rfl),
   syncNow_guard exEnvFail _ (Or.inr rfl)⟩

/-- Claim C9: `resolve` (removePendingSync) is idempotent: after a
successful removal of a mutation id, removing the same id again leaves the
queue unchanged (the second call is a no-op on the queue, whatever the
storage oracle does). -/
theorem resolve_idempotent (env : Env) (s : SyncState) (mid : String)
    (h : (removePendingSync env mid s).2 = Except.ok ()) :
    (removePendingSync env mid (removePendingSync env mid s).1).1.queue
      = (removePendingSync env mid s).1.queue := by
  unfold removePendingSync stepStorage at h ⊢
  rcases hf1 : env.storageFault s.opCount with _ | _
  · simp only [hf1, Bool.false_eq_true, if_neg, ite_false]
    rcases hf2 : env.storageFault (s.opCount + 1) with _ | _
    · simp [idbDelete, List.filter_filter]
    · simp
  · simp [hf1] at h

/-- Witness for C9 at a concrete one-element queue. -/
theorem resolve_idempotent_witness :
    (removePendingSync exEnv "create-offline-7-7"
        (removePendingSync exEnv "create-offline-7-7"
          (mkState false (some "u") [] [exCreateItem])).1).1.queue
      = (removePendingSync exEnv "create-offline-7-7"
          (mkState false (some "u") [] [exCreateItem])).1.queue :=
  resolve_idempotent exEnv (mkState false (some "u") [] [exCreateItem])
    "create-offline-7-7" (by decide)

end FreeWriting

namespace FreeWriting

/-- Claim C10: `createEntry` called while online writes nothing, enqueues
nothing and returns null (the state is untouched); while offline it
synthesizes a temporary entry (id `offline-${now}`, fields from the payload
with JavaScript defaulting), persists it in the Local Entry Cache, enqueues
a create mutation for it, raises has-pending-changes and returns it. -/
theorem createEntry_online_offline :
    (∀ (env : Env) (now : Nat) (d : InsertData) (s : SyncState),
      s.online = true → createEntry env now d s = (s, Except.ok none))
      ∧ ∀ (env : Env) (now : Nat) (d : InsertData) (s : SyncState),
          s.online = false →
          env.storageFault s.opCount = false →
          env.storageFault (s.opCount + 1) = false →
          ∃ tempE : JournalEntry,
            (createEntry env now d s).2 = Except.ok (some tempE)
            ∧ tempE.id = "offline-" ++ toString now
            ∧ tempE.title = jsOr d.title ""
            ∧ tempE.content = jsOr d.content ""
            ∧ tempE.wordCount = jsOr d.wordCount "0"
            ∧ (createEntry env now d s).1.cache.find? (fun x => x.id = tempE.id)
              = some tempE
            ∧ (createEntry env now d s).1.queue.find?
                (fun x => x.id = mkSyncId .create tempE.id now)
              = some { id := mkSyncId .create tempE.id now, action := .create,
                       entryId := tempE.id, data := some d, timestamp := now }
            ∧ (createEntry env now d s).1.hasPendingChanges = true := by
  constructor
  · intro env now d s h
    unfold createEntry
    simp [h]
  · intro env now d s hoff hf0 hf1
    refine ⟨{ id := "offline-" ++ toString now
              userId := s.userId.getD ""
              title := jsOr d.title ""
              content := jsOr d.content ""
              tags := d.tags.getD []
              wordCount := jsOr d.wordCount "0"
              createdAt := now
              updatedAt := now }, ?_, rfl, rfl, rfl, rfl, ?_, ?_, ?_⟩
    · unfold createEntry
      simp [hoff, hf0, hf1]
    · unfold createEntry
      simp [hoff, hf0, hf1]
      exact find?_idbPut_self (fun x => x.id)
        { id := "offline-" ++ toString now
          userId := s.userId.getD ""
          title := jsOr d.title ""
          content := jsOr d.content ""
          tags := d.tags.getD []
          wordCount := jsOr d.wordCount "0"
          createdAt := now
          updatedAt := now } s.cache
    · unfold createEntry
      simp [hoff, hf0, hf1]
      exact find?_idbPut_self (fun x => x.id)
        { id := mkSyncId .create ("offline-" ++ toString now) now
          action := .create
          entryId := "offline-" ++ toString now
          data := some d
          timestamp := now } s.queue
    · unfold createEntry
      simp [hoff, hf0, hf1]

end FreeWriting

namespace FreeWriting

/-- Witness for C10 at concrete inputs: online leaves the state untouched
and returns null; offline synthesizes, persists, enqueues and returns the
temporary entry. -/
theorem createEntry_online_offline_witness :
    createEntry exEnv 9 exData (mkState true (some "u") [] [])
        = (mkState true (some "u") [] [], Except.ok none)
      ∧ ∃ tempE : JournalEntry,
          (createEntry exEnv 9 exData (mkState false (some "u") [] [])).2
            = Except.ok (some tempE)
          ∧ tempE.id = "offline-" ++ toString 9
          ∧ tempE.title = jsOr exData.title ""
          ∧ tempE.content = jsOr exData.content ""
          ∧ tempE.wordCount = jsOr exData.wordCount "0"
          ∧ (createEntry exEnv 9 exData (mkState false (some "u") [] [])).1.cache.find?
              (fun x => x.id = tempE.id) = some tempE
          ∧ (createEntry exEnv 9 exData (mkState false (some "u") [] [])).1.queue.find?
              (fun x => x.id = mkSyncId .create tempE.id 9)
            = some { id := mkSyncId .create tempE.id 9, action := .create,
                     entryId := tempE.id, data := some exData, timestamp := 9 }
          ∧ (createEntry exEnv 9 exData (mkState false (some "u") [] [])).1.hasPendingChanges
            = true :=
  ⟨createEntry_online_offline.1 exEnv 9 exData (mkState true (some "u") [] []) rfl,
   createEntry_online_offline.2 exEnv 9 exData (mkState false (some "u") [] [])
     rfl rfl rfl⟩

/-- Claim C3 counterexample: two `updateEntryOffline` calls in a row for
the same entry within the same millisecond (`Date.now()` returns 100 for
both) generate the SAME identifier `update-e1-100`; the second `put`
overwrites the first, so the queue holds one update mutation, not two
distinct ones — the generated identifier is not unique. -/
theorem enqueue_collision_counterexample :
    ((updateEntry exEnv 100 "e1" exData2
        ((updateEntry exEnv 100 "e1" exData
          (mkState false (some "u") [exEntry] [])).1)).1).queue.length = 1
      ∧ ((updateEntry exEnv 100 "e1" exData
            (mkState false (some "u") [exEntry] [])).1).queue.map (fun i => i.id)
        = ["update-e1-100"]
      ∧ ((updateEntry exEnv 100 "e1" exData2
            ((updateEntry exEnv 100 "e1" exData
              (mkState false (some "u") [exEntry] [])).1)).1).queue.map (fun i => i.id)
        = ["update-e1-100"]
      ∧ (updateEntry exEnv 100 "e1" exData2
            ((updateEntry exEnv 100 "e1" exData
              (mkState false (some "u") [exEntry] [])).1)).2 = Except.ok () := by
  exact ⟨by decide, by decide, by decide, by decide⟩

/-- Claim C3 (amended): `addPendingSync` generates the identifier
`action-targetId-timestamp`; identifiers of two enqueued update mutations
for the same entry are fresh exactly when the identifier strings differ
(distinct milliseconds).  Two `updateEntryOffline` calls in a row leave two
distinct update mutations when their identifiers differ, and a single
overwritten one when they collide; in both cases the Local Entry Cache
holds exactly the latest merged fields after each call. -/
theorem enqueue_fresh_identifiers (env : Env) (e : JournalEntry)
    (d1 d2 : InsertData) (t1 t2 : Nat)
    (hsf : env.storageFault = fun _ => false) :
    ((updateEntry env t1 e.id d1 (mkState false (some e.userId) [e] [])).1).cache
        = [applyInsertData e d1 t1]
      ∧ ((updateEntry env t2 e.id d2
            ((updateEntry env t1 e.id d1
              (mkState false (some e.userId) [e] [])).1)).1).cache
        = [applyInsertData (applyInsertData e d1 t1) d2 t2]
      ∧ (mkSyncId .update e.id t1 ≠ mkSyncId .update e.id t2 →
          ((updateEntry env t2 e.id d2
              ((updateEntry env t1 e.id d1
                (mkState false (some e.userId) [e] [])).1)).1).queue
            = [{ id := mkSyncId .update e.id t1, action := .update,
                 entryId := e.id, data := some d1, timestamp := t1 },
               { id := mkSyncId .update e.id t2, action := .update,
                 entryId := e.id, data := some d2, timestamp := t2 }])
      ∧ (mkSyncId .update e.id t1 = mkSyncId .update e.id t2 →
          ((updateEntry env t2 e.id d2
              ((updateEntry env t1 e.id d1
                (mkState false (some e.userId) [e] [])).1)).1).queue
            = [{ id := mkSyncId .update e.id t2, action := .update,
                 entryId := e.id, data := some d2, timestamp := t2 }]) := by
  refine ⟨?_, ?_, ?_, ?_⟩
  · unfold updateEntry
    simp [hsf, mkState, idbPut, List.find?]
  · unfold updateEntry
    simp [hsf, mkState, idbPut, List.find?]
  · intro hne
    unfold updateEntry
    simp [hsf, mkState, idbPut, List.find?, hne]
  · intro heq
    unfold updateEntry
    simp [hsf, mkState, idbPut, List.find?, heq]

end FreeWriting

namespace FreeWriting

/-- Witness for C3's amended theorem: with distinct milliseconds 1 and 2
the two update mutations coexist in the queue. -/
theorem enqueue_fresh_identifiers_witness :
    ((updateEntry exEnv 2 exEntry.id exData2
        ((updateEntry exEnv 1 exEntry.id exData
          (mkState false (some exEntry.userId) [exEntry] [])).1)).1).queue
      = [{ id := mkSyncId .update exEntry.id 1, action := .update,
           entryId := exEntry.id, data := some exData, timestamp := 1 },
         { id := mkSyncId .update exEntry.id 2, action := .update,
           entryId := exEntry.id, data := some exData2, timestamp := 2 }] :=
  (enqueue_fresh_identifiers exEnv exEntry exData exData2 1 2 rfl).2.2.1 (by decide)

/-- Claim C7: faults inside a sync pass are contained — the in-progress
flag is never left set by `syncNow` (it equals its input value in general,
and is cleared, together with the syncing flag, at the end of every pass
that actually ran, whatever the service and storage oracles do), and every
failing mutation replay is caught at the per-mutation boundary, its only
observable effect on the log being the one logged failure message. -/
theorem sync_fault_containment :
    (∀ (env : Env) (s : SyncState),
        (syncNow env s).syncInProgress = s.syncInProgress)
      ∧ (∀ (env : Env) (s : SyncState), s.online = true → s.syncInProgress = false →
          (syncNow env s).isSyncing = false ∧ (syncNow env s).syncInProgress = false)
      ∧ ∀ (env : Env) (s : SyncState) (item : PendingSyncItem),
          (processSyncItem env s item).log = s.log
            ∨ (processSyncItem env s item).log = s.log ++ [syncItemFailLog item.id] := by
  refine ⟨?_, ?_, processSyncItem_log⟩
  · intro env s
    unfold syncNow
    by_cases h1 : s.online <;> by_cases h2 : s.syncInProgress <;>
      simp [h1, h2, finalizePass]
  · intro env s h1 h2
    unfold syncNow
    simp [h1, h2, finalizePass]

/-- Witness for C7 at a concrete state (service failing, one queued
mutation): the pass ends idle with flags cleared, and the failing replay
appends exactly the per-mutation log message. -/
theorem sync_fault_containment_witness :
    (syncNow exEnvFail (mkState true (some "u") [] [exCreateItem])).syncInProgress
        = (mkState true (some "u") [] [exCreateItem]).syncInProgress
      ∧ ((syncNow exEnvFail (mkState true (some "u") [] [exCreateItem])).isSyncing = false
        ∧ (syncNow exEnvFail (mkState true (some "u") [] [exCreateItem])).syncInProgress = false)
      ∧ ((processSyncItem exEnvFail (mkState true (some "u") [] [exCreateItem]) exCreateItem).log
            = (mkState true (some "u") [] [exCreateItem]).log
          ∨ (processSyncItem exEnvFail (mkState true (some "u") [] [exCreateItem]) exCreateItem).log
            = (mkState true (some "u") [] [exCreateItem]).log
              ++ [syncItemFailLog exCreateItem.id]) :=
  ⟨sync_fault_containment.1 exEnvFail (mkState true (some "u") [] [exCreateItem]),
   sync_fault_containment.2.1 exEnvFail (mkState true (some "u") [] [exCreateItem]) rfl rfl,
   sync_fault_containment.2.2 exEnvFail (mkState true (some "u") [] [exCreateItem]) exCreateItem⟩

/-- Claim C4: after a sync pass in which the create mutation for an
offline-created entry succeeds (the service returns an entry with a
server-assigned id and the same title and content), the Local Entry Cache
no longer contains the temporary id, contains exactly one entry — the
server entry, with identical title/content — and the create mutation is
resolved, leaving the queue empty. -/
theorem temp_id_substitution (env : Env) (tempE serverE : JournalEntry)
    (d : InsertData) (mid : String) (ts : Nat)
    (hsf : env.storageFault = fun _ => false)
    (hpost : env.post d = Except.ok serverE)
    (hid : ¬ serverE.id = tempE.id)
    (htitle : serverE.title = tempE.title)
    (hcontent : serverE.content = tempE.content) :
    (syncNow env (mkState true none [tempE]
        [{ id := mid, action := .create, entryId := tempE.id,
           data := some d, timestamp := ts }])).cache = [serverE]
      ∧ (syncNow env (mkState true none [tempE]
          [{ id := mid, action := .create, entryId := tempE.id,
             data := some d, timestamp := ts }])).cache.find?
            (fun x => x.id = tempE.id) = none
      ∧ (syncNow env (mkState true none [tempE]
          [{ id := mid, action := .create, entryId := tempE.id,
             data := some d, timestamp := ts }])).queue = []
      ∧ (syncNow env (mkState true none [tempE]
          [{ id := mid, action := .create, entryId := tempE.id,
             data := some d, timestamp := ts }])).hasPendingChanges = false
      ∧ (syncNow env (mkState true none [tempE]
          [{ id := mid, action := .create, entryId := tempE.id,
             data := some d, timestamp := ts }])).cache.map
            (fun x => (x.title, x.content)) = [(tempE.title, tempE.content)] := by
  unfold syncNow pullPhase processSyncItem finalizePass
  simp [hsf, hpost, hid, htitle, hcontent, mkState, sortById, idbDelete, idbPut]

end FreeWriting

namespace FreeWriting

/-- Witness for C4 at the concrete offline-create scenario of the spec. -/
theorem temp_id_substitution_witness :
    (syncNow exEnv (mkState true none [exTempEntry]
        [{ id := "create-offline-7-7", action := .create, entryId := exTempEntry.id,
           data := some exData, timestamp := 7 }])).cache = [exServerEntry]
      ∧ (syncNow exEnv (mkState true none [exTempEntry]
          [{ id := "create-offline-7-7", action := .create, entryId := exTempEntry.id,
             data := some exData, timestamp := 7 }])).cache.find?
            (fun x => x.id = exTempEntry.id) = none
      ∧ (syncNow exEnv (mkState true none [exTempEntry]
          [{ id := "create-offline-7-7", action := .create, entryId := exTempEntry.id,
             data := some exData, timestamp := 7 }])).queue = []
      ∧ (syncNow exEnv (mkState true none [exTempEntry]
          [{ id := "create-offline-7-7", action := .create, entryId := exTempEntry.id,
             data := some exData, timestamp := 7 }])).hasPendingChanges = false
      ∧ (syncNow exEnv (mkState true none [exTempEntry]
          [{ id := "create-offline-7-7", action := .create, entryId := exTempEntry.id,
             data := some exData, timestamp := 7 }])).cache.map
            (fun x => (x.title, x.content)) = [(exTempEntry.title, exTempEntry.content)] :=
  temp_id_substitution exEnv exTempEntry exServerEntry exData "create-offline-7-7" 7
    rfl rfl (by decide) rfl rfl

theorem mkSyncId_create_lt_update (a b : String) (t1 t2 : Nat) :
    strLt (mkSyncId .create a t1) (mkSyncId .update b t2) := by
  unfold strLt mkSyncId SyncAction.str
  have hc : ("create" : String).data = ['c','r','e','a','t','e'] := rfl
  have hu : ("update" : String).data = ['u','p','d','a','t','e'] := rfl
  have hd : ("-" : String).data = ['-'] := rfl
  simp [String.data_append, hc, hu, hd, charListLt]

theorem mkSyncId_create_le_update (a b : String) (t1 t2 : Nat) :
    strLe (mkSyncId .create a t1) (mkSyncId .update b t2) := by
  unfold strLe strLt mkSyncId SyncAction.str
  have hc : ("create" : String).data = ['c','r','e','a','t','e'] := rfl
  have hu : ("update" : String).data = ['u','p','d','a','t','e'] := rfl
  have hd : ("-" : String).data = ['-'] := rfl
  simp [String.data_append, hc, hu, hd, charListLt]

theorem mkSyncId_update_ne_create (a b : String) (t1 t2 : Nat) :
    ¬ mkSyncId .update b t2 = mkSyncId .create a t1 := by
  intro h
  have hlt := mkSyncId_create_lt_update a b t1 t2
  rw [strLt_iff] at hlt
  exact absurd h (ne_of_gt hlt)

end FreeWriting

namespace FreeWriting

/-- Claim C5: for a queue holding a create for a temporary id followed by
an update targeting the same temporary id, replayed in one pass in which
the create succeeds, the update's replay still skips the network call (the
queued target id keeps its temporary prefix — confirming the create does
not rewrite later queued mutations) and the update is resolved anyway: the
pass performs exactly the one POST, never submitting the update payload,
and ends with an empty queue. -/
theorem temp_update_skipped (env : Env) (tid : String) (d0 d : InsertData)
    (serverE : JournalEntry) (t1 t2 : Nat) (cache0 : List JournalEntry)
    (hsf : env.storageFault = fun _ => false)
    (hpost : env.post d0 = Except.ok serverE)
    (htemp : strStartsWith tid "offline-" = true) :
    (syncNow env (mkState true none cache0
        [{ id := mkSyncId .create tid t1, action := .create, entryId := tid,
           data := some d0, timestamp := t1 },
         { id := mkSyncId .update tid t2, action := .update, entryId := tid,
           data := some d, timestamp := t2 }])).trace = [Request.post d0]
      ∧ (syncNow env (mkState true none cache0
          [{ id := mkSyncId .create tid t1, action := .create, entryId := tid,
             data := some d0, timestamp := t1 },
           { id := mkSyncId .update tid t2, action := .update, entryId := tid,
             data := some d, timestamp := t2 }])).queue = [] := by
  have hle : idLe
      { id := mkSyncId .create tid t1, action := .create, entryId := tid,
        data := some d0, timestamp := t1 }
      { id := mkSyncId .update tid t2, action := .update, entryId := tid,
        data := some d, timestamp := t2 } :=
    mkSyncId_create_le_update tid tid t1 t2
  have hne := mkSyncId_update_ne_create tid tid t1 t2
  unfold syncNow pullPhase processSyncItem finalizePass
  simp [hsf, hpost, htemp, hne, hle, mkState, sortById, idbDelete, idbPut]

/-- Witness for C5 at the concrete temp entry: one POST, no PATCH, queue
drained. -/
theorem temp_update_skipped_witness :
    (syncNow exEnv (mkState true none [exTempEntry]
        [{ id := mkSyncId .create "offline-7" 7, action := .create, entryId := "offline-7",
           data := some exData, timestamp := 7 },
         { id := mkSyncId .update "offline-7" 8, action := .update, entryId := "offline-7",
           data := some exData2, timestamp := 8 }])).trace = [Request.post exData]
      ∧ (syncNow exEnv (mkState true none [exTempEntry]
          [{ id := mkSyncId .create "offline-7" 7, action := .create, entryId := "offline-7",
             data := some exData, timestamp := 7 },
           { id := mkSyncId .update "offline-7" 8, action := .update, entryId := "offline-7",
             data := some exData2, timestamp := 8 }])).queue = [] :=
  temp_update_skipped exEnv "offline-7" exData exData2 exServerEntry 7 8 [exTempEntry]
    rfl rfl (by decide)

end FreeWriting

namespace FreeWriting

/-- Claim C1 counterexample: with the Remote Entry Service unreachable,
replaying a queued create logs the failure but does NOT resolve the
mutation — after the pass the queue still contains it — and the very next
pass submits it again (two POST attempts across two passes), contradicting
"still resolves", "the queue no longer contains it" and "never
re-submitted". -/
theorem failed_create_counterexample :
    (syncNow exEnvFail (mkState true none [exTempEntry] [exCreateItem])).queue
        = [exCreateItem]
      ∧ (syncNow exEnvFail (mkState true none [exTempEntry] [exCreateItem])).log
        = [syncItemFailLog exCreateItem.id]
      ∧ (syncNow exEnvFail (mkState true none [exTempEntry] [exCreateItem])).trace
        = [Request.post exData]
      ∧ (syncNow exEnvFail
          (syncNow exEnvFail (mkState true none [exTempEntry] [exCreateItem]))).trace
        = [Request.post exData, Request.post exData] := by
  exact ⟨by decide, by decide, by decide, by decide⟩

/-- Claim C1 (amended): a pending create whose Remote Entry Service call
fails during replay is logged and left in the queue (resolve is not
reached), so it will be re-submitted by a later pass; within the single
pass it is attempted exactly once (exactly one POST of its payload), and
the engine still reports pending changes afterwards. -/
theorem failed_mutation_stays_queued (env : Env) (mid eid : String)
    (d : InsertData) (ts : Nat) (u : Option String) (cache0 : List JournalEntry)
    (hsf : env.storageFault = fun _ => false)
    (hpost : env.post d = Except.error ()) :
    (syncNow env (mkState true u cache0
        [{ id := mid, action := .create, entryId := eid,
           data := some d, timestamp := ts }])).queue
      = [{ id := mid, action := .create, entryId := eid,
           data := some d, timestamp := ts }]
      ∧ syncItemFailLog mid ∈ (syncNow env (mkState true u cache0
          [{ id := mid, action := .create, entryId := eid,
             data := some d, timestamp := ts }])).log
      ∧ (syncNow env (mkState true u cache0
          [{ id := mid, action := .create, entryId := eid,
             data := some d, timestamp := ts }])).trace.count (Request.post d) = 1
      ∧ (syncNow env (mkState true u cache0
          [{ id := mid, action := .create, entryId := eid,
             data := some d, timestamp := ts }])).hasPendingChanges = true := by
  unfold syncNow pullPhase processSyncItem finalizePass
  rcases u with _ | uid
  · simp [hsf, hpost, mkState, sortById]
  · rcases hp : env.pull uid with _ | lopt
    · simp [hsf, hpost, hp, mkState, sortById]
    · rcases lopt with _ | l <;> simp [hsf, hpost, hp, mkState, sortById]

/-- Witness for C1's amended theorem at a concrete failing environment. -/
theorem failed_mutation_stays_queued_witness :
    (syncNow exEnvFail (mkState true (some "u") [exTempEntry]
        [{ id := "create-offline-7-7", action := .create, entryId := "offline-7",
           data := some exData, timestamp := 7 }])).queue
      = [{ id := "create-offline-7-7", action := .create, entryId := "offline-7",
           data := some exData, timestamp := 7 }]
      ∧ syncItemFailLog "create-offline-7-7" ∈ (syncNow exEnvFail
          (mkState true (some "u") [exTempEntry]
            [{ id := "create-offline-7-7", action := .create, entryId := "offline-7",
               data := some exData, timestamp := 7 }])).log
      ∧ (syncNow exEnvFail (mkState true (some "u") [exTempEntry]
          [{ id := "create-offline-7-7", action := .create, entryId := "offline-7",
             data := some exData, timestamp := 7 }])).trace.count (Request.post exData) = 1
      ∧ (syncNow exEnvFail (mkState true (some "u") [exTempEntry]
          [{ id := "create-offline-7-7", action := .create, entryId := "offline-7",
             data := some exData, timestamp := 7 }])).hasPendingChanges = true :=
  failed_mutation_stays_queued exEnvFail "create-offline-7-7" "offline-7" exData 7
    (some "u") [exTempEntry] rfl rfl

end FreeWriting

namespace FreeWriting

/-- Claim C8: the post-replay reconciliation pull overwrites stale local
copies: for any state holding a stale cached copy of an entry id, if the
pass's pull succeeds and returns that id (exactly once) with new content,
then after the pass the cache lookup for that id yields the pulled entry —
whatever mutations were replayed first. -/
theorem pull_overwrites_stale (env : Env) (s : SyncState) (uid k : String)
    (stale fresh : JournalEntry) (l : List JournalEntry)
    (hon : s.online = true) (hrun : s.syncInProgress = false)
    (hsf : env.storageFault = fun _ => false)
    (huid : s.userId = some uid)
    (hstale : s.cache.find? (fun x => x.id = k) = some stale)
    (hpull : env.pull uid = Except.ok (some l))
    (hl : l.filter (fun x => x.id = k) = [fresh]) :
    (syncNow env s).cache.find? (fun x => x.id = k) = some fresh := by
  have hg : (!s.online || s.syncInProgress) = false := by
    rw [hon, hrun]
    rfl
  have hpc : ∀ (t : SyncState), t.userId = some uid →
      (pullPhase env t).cache = putAllEntries l t.cache := by
    intro t ht
    unfold pullPhase
    rw [ht]
    simp [hpull, hsf]
  unfold syncNow
  rw [hg]
  simp only [Bool.false_eq_true, if_false]
  rw [getPendingSyncs_snd]
  simp only [hsf, if_false, Bool.false_eq_true]
  unfold finalizePass
  simp only [hasPendingSyncs_snd, hasPendingSyncs_fst, hsf, if_false, Bool.false_eq_true]
  rw [hpc _ (by rw [foldl_processSyncItem_userId, getPendingSyncs_fst]; exact huid)]
  exact find?_putAll_unique l k fresh hl _

/-- Witness for C8: a cache seeded with stale content; the pull returns the
same id with fresh content; after the pass the lookup returns the fresh
entry. -/
theorem pull_overwrites_stale_witness :
    (syncNow exEnv (mkState true (some "u") [exEntry] [])).cache.find?
        (fun x => x.id = "e1") = some exFreshEntry :=
  pull_overwrites_stale exEnv (mkState true (some "u") [exEntry] []) "u" "e1"
    exEntry exFreshEntry [exFreshEntry] rfl rfl rfl rfl (by decide) rfl (by decide)

end FreeWriting
